import Mathlib

/-!
Verification development for the SEC-filing document analysis pipeline
(`backend/analysis/`: `filing_analyzer.py`, `entity_linker.py`,
`event_detector.py`, `models.py`).

Strings are embedded as `List Char`.  Python regular-expression behaviour
is embedded by hand-specialised matchers that follow the exact
backtracking semantics of the concrete patterns used in the source; the
character classes `\s`, `\w` and `\d` are modelled on their ASCII subset,
which covers every character the source patterns and catalogs mention.

The model gateway (`ModelClient.analyze_text`, models.py lines 51-153)
catches every exception of the underlying HTTP call and returns a result
dict with `success` either `True` (with an `analysis` key) or `False`
(without one); it is therefore embedded as a value of type `ModelOutcome`
supplied by the caller, one per gateway invocation.  Prompt strings are
not reconstructed: they influence only the gateway's free-text reply,
which is exactly the `ModelOutcome` parameter.
-/

abbrev Str := List Char

def toL (s : String) : Str := s.toList

/-- Python whitespace for `str.strip` and the `\s` class (ASCII subset). -/
def isPyWS (c : Char) : Bool :=
  c = ' ' || c = '\t' || c = '\n' || c = '\r' || c = '\x0b' || c = '\x0c'

/-- Python `\w` word characters (ASCII subset). -/
def isWordChar (c : Char) : Bool := c.isAlphanum || c = '_'

/-- Case-insensitive character comparison, as under `re.IGNORECASE`. -/
def charEqCI (a b : Char) : Bool := a.toLower == b.toLower

/-- `pat` is a case-insensitive prefix of `s`. -/
def matchPrefixCI : Str → Str → Bool
  | [], _ => true
  | _ :: _, [] => false
  | a :: as, b :: bs => charEqCI a b && matchPrefixCI as bs

/-- `re.search` of a literal alternation: the text contains `pat`
case-insensitively. -/
def containsCI (pat : Str) : Str → Bool
  | [] => matchPrefixCI pat []
  | s@(_ :: t) => matchPrefixCI pat s || containsCI pat t

/-- Python `str.strip()`. -/
def pyStrip (s : Str) : Str :=
  ((s.dropWhile isPyWS).reverse.dropWhile isPyWS).reverse

/-- Python `str.capitalize()`: first character upper-cased, the rest
lower-cased (ASCII). -/
def pyCapitalize : Str → Str
  | [] => []
  | c :: t => c.toUpper :: t.map Char.toLower

/-! ## Section extraction (`FilingAnalyzer._extract_sections`)

The source compiles, per catalog label `section`, the pattern

  `(?i){section}[\s\n:.]*([^\n]+[\n].*?)(?=(?:{lab1|lab2|...})|$)`

with `re.DOTALL`, runs `findall` over the filing text and keeps
`matches[0].strip()`.  The lookahead alternation ranges over the whole
catalog (`target_sections`), the scanned label included. -/

/-- The character class `[\s\n:.]` of the section pattern. -/
def inSecClass (c : Char) : Bool := isPyWS c || c = ':' || c = '.'

/-- The lookahead `(?=(?:lab1|...|labn)|$)` holds at a suffix: some
catalog label matches case-insensitively here, or `$` matches (end of
input, or just before a single trailing newline -- Python `$` without
`re.MULTILINE`). -/
def lookaheadHolds (cat : List Str) (s : Str) : Bool :=
  cat.any (fun lab => matchPrefixCI lab s) || s == [] || s == ['\n']

/-- The lazy `.*?` bounded by the lookahead: number of characters consumed
before the first position where the lookahead holds. -/
def lazyScan (cat : List Str) : Str → Nat
  | [] => 0
  | s@(_ :: t) => if lookaheadHolds cat s then 0 else 1 + lazyScan cat t

/-- The capture `([^\n]+[\n].*?)` anchored at a fixed start position:
one maximal nonempty run of non-newline characters, the newline, then the
lazy tail. `none` when no newline follows a nonempty first line. -/
def captureFrom (cat : List Str) (s : Str) : Option Str :=
  match s.takeWhile (fun c => c ≠ '\n'), s.dropWhile (fun c => c ≠ '\n') with
  | [], _ => none
  | _ :: _, [] => none
  | m, c :: rest =>
    if c = '\n' then some (m ++ c :: rest.take (lazyScan cat rest)) else none

/-- Greedy `[\s\n:.]*` with backtracking: try the capture after `k`
class characters, `k` descending from the maximal run length. -/
def tryClassRun (cat : List Str) (s0 : Str) : Nat → Option Str
  | 0 => captureFrom cat s0
  | k + 1 =>
    match captureFrom cat (s0.drop (k + 1)) with
    | some cap => some cap
    | none => tryClassRun cat s0 k

/-- One match attempt of the whole section pattern at a fixed position. -/
def attemptAt (cat : List Str) (lab : Str) (s : Str) : Option Str :=
  if matchPrefixCI lab s then
    tryClassRun cat (s.drop lab.length)
      (((s.drop lab.length).takeWhile inSecClass).length)
  else none

/-- `findall`, first match only: scan left to right, return the first
successful capture. -/
def findFirstCapture (cat : List Str) (lab : Str) : Str → Option Str
  | [] => none
  | s@(_ :: t) =>
    match attemptAt cat lab s with
    | some cap => some cap
    | none => findFirstCapture cat lab t

/-- `FilingAnalyzer.SECTIONS_OF_INTEREST` (`dict.get` with default `[]`). -/
def SECTIONS_OF_INTEREST (ty : Str) : List Str :=
  if ty = toL "10-K" then
    [toL "Risk Factors", toL "Management\x27s Discussion and Analysis",
     toL "Financial Statements", toL "Controls and Procedures",
     toL "Executive Compensation"]
  else if ty = toL "10-Q" then
    [toL "Management\x27s Discussion and Analysis", toL "Financial Statements",
     toL "Controls and Procedures", toL "Risk Factors"]
  else if ty = toL "8-K" then
    [toL "Item 1.01", toL "Item 1.02", toL "Item 2.01", toL "Item 2.02",
     toL "Item 4.01", toL "Item 5.01", toL "Item 5.02", toL "Item 8.01"]
  else if ty = toL "4" then
    [toL "Table I", toL "Table II", toL "Remarks"]
  else []

/-- `FilingAnalyzer._extract_sections`: empty catalog falls back to the
single entry `"complete_filing" -> whole text`; otherwise one entry per
catalog label that has a match, in catalog order, holding the stripped
first capture. -/
def extract_sections (filing_text : Str) (filing_type : Str) :
    List (Str × Str) :=
  let target := SECTIONS_OF_INTEREST filing_type
  if target = [] then [(toL "complete_filing", filing_text)]
  else
    target.filterMap fun lab =>
      (findFirstCapture target lab filing_text).map fun cap =>
        (lab, pyStrip cap)

/-- Modelled from the spec: section extraction as described in section 4.1
of the design document, where the capture for a label extends "up to the
next occurrence of any **other** catalog label or end-of-document" -- the
lookahead set for `lab` excludes `lab` itself.  Used to compare the spec's
wording against `extract_sections` (the source). -/
def extract_sections_specwords (filing_text : Str) (filing_type : Str) :
    List (Str × Str) :=
  let target := SECTIONS_OF_INTEREST filing_type
  if target = [] then [(toL "complete_filing", filing_text)]
  else
    target.filterMap fun lab =>
      (findFirstCapture (target.filter (fun l => l != lab)) lab
          filing_text).map fun cap => (lab, pyStrip cap)

/-! ## Block splitting (`re.split(r'\n\s*(?:\d+\.|\*|\-)\s*', text)`)

Shared by `_parse_entities`, `_parse_events` and `_parse_links`. -/

/-- Length of the separator remainder after its leading newline:
`\s*` (maximal run), then the marker `\d+\.` or `*` or `-`, then a
trailing maximal `\s*` run.  `none` when no marker follows. -/
def sepTailLen (t : Str) : Option Nat :=
  let w := t.takeWhile isPyWS
  let r := t.drop w.length
  match r with
  | '*' :: r2 => some (w.length + 1 + (r2.takeWhile isPyWS).length)
  | '-' :: r2 => some (w.length + 1 + (r2.takeWhile isPyWS).length)
  | c :: _ =>
    if c.isDigit then
      let d := r.takeWhile Char.isDigit
      match r.drop d.length with
      | '.' :: r2 => some (w.length + d.length + 1 + (r2.takeWhile isPyWS).length)
      | _ => none
    else none
  | [] => none

/-- `re.split` on the block-marker separator.  The fuel argument only
serves structural termination; with `fuel = s.length` the fuel never runs
out, as every step consumes at least one character of `s`. -/
def splitGo : Nat → Str → Str → List Str
  | _, cur, [] => [cur.reverse]
  | 0, cur, s => [cur.reverse ++ s]
  | fuel + 1, cur, '\n' :: t =>
    match sepTailLen t with
    | some n => cur.reverse :: splitGo fuel [] (t.drop n)
    | none => splitGo fuel ('\n' :: cur) t
  | fuel + 1, cur, c :: t => splitGo fuel (c :: cur) t

def pySplit (text : Str) : List Str := splitGo text.length [] text

/-! ## Labeled-field extraction

Three pattern shapes occur in the source, all under `re.IGNORECASE`:

* `(?:lab1|...|labn):\s*([^,\n]+)`          (entity name/type/role,
  link entity names / relationship)
* `(?:lab1|...|labn)[^\w]*:?\s*(\w+)`       (financial/market impact,
  risk level)
* `(?:lab1|...|labn)[^\w]*:?\s*([^,\n]+)`   (event entities)

For each, a successful match at a fixed label occurrence places the
capture at the largest skip offset (within the greedy skip run) whose
character can begin the capture class; the capture itself is the maximal
run of its class.  An attempt returns the capture together with the
suffix following the whole match, so `findall` can resume after it. -/

/-- A capture-class character that may appear in `[^,\n]+`. -/
def notCommaNl (c : Char) : Bool := !(c = ',' || c = '\n')

/-- Try to start the capture (maximal `inCap` run) after exactly `k`
skipped characters.  Returns the capture and the remaining suffix. -/
def capTry (inCap : Char → Bool) (r : Str) (k : Nat) : Option (Str × Str) :=
  match r.drop k with
  | [] => none
  | c :: _ =>
    if inCap c then
      some ((r.drop k).takeWhile inCap, (r.drop k).dropWhile inCap)
    else none

/-- Backtrack the greedy skip run: largest viable `k` first. -/
def capBacktrack (inCap : Char → Bool) (r : Str) : Nat → Option (Str × Str)
  | 0 => capTry inCap r 0
  | k + 1 =>
    match capTry inCap r (k + 1) with
    | some res => some res
    | none => capBacktrack inCap r k

/-- Pattern `(?:labs):\s*([^,\n]+)` at a fixed position: the first label
(in alternation order) that is a case-insensitive prefix here, followed
immediately by `:`, then whitespace skip with backtracking, then the
capture. -/
def attemptColonValue (labs : List Str) (s : Str) : Option (Str × Str) :=
  labs.findSome? fun lab =>
    if matchPrefixCI lab s then
      match s.drop lab.length with
      | ':' :: r2 => capBacktrack notCommaNl r2 ((r2.takeWhile isPyWS).length)
      | _ => none
    else none

/-- Pattern `(?:labs)[^\w]*:?\s*(\w+)` at a fixed position: after the
label, the combined skip consumes exactly the maximal non-word run (the
optional colon and whitespace are themselves non-word), and the `\w+`
capture can only start right after it. -/
def attemptWordValue (labs : List Str) (s : Str) : Option (Str × Str) :=
  labs.findSome? fun lab =>
    if matchPrefixCI lab s then
      let r2 := s.drop lab.length
      capTry isWordChar r2 ((r2.takeWhile (fun c => !isWordChar c)).length)
    else none

/-- Pattern `(?:labs)[^\w]*:?\s*([^,\n]+)` at a fixed position: maximal
non-word skip run with backtracking, capture `[^,\n]+`. -/
def attemptLooseValue (labs : List Str) (s : Str) : Option (Str × Str) :=
  labs.findSome? fun lab =>
    if matchPrefixCI lab s then
      let r2 := s.drop lab.length
      capBacktrack notCommaNl r2 ((r2.takeWhile (fun c => !isWordChar c)).length)
    else none

/-- `re.search`: first position (left to right) where the attempt
succeeds; the capture group. -/
def searchFirst (attempt : Str → Option (Str × Str)) : Str → Option Str
  | [] => (attempt []).map Prod.fst
  | s@(_ :: t) =>
    match attempt s with
    | some (v, _) => some v
    | none => searchFirst attempt t

/-- `re.findall`: all non-overlapping matches, scanning left to right and
resuming after each match.  `fuel` bounds the recursion; with
`fuel = s.length` it never runs out, as every step consumes at least one
character. -/
def findAllGo (attempt : Str → Option (Str × Str)) : Nat → Str → List Str
  | 0, _ => []
  | _, [] => []
  | fuel + 1, s@(_ :: t) =>
    match attempt s with
    | some (v, rest) => v :: findAllGo attempt fuel rest
    | none => findAllGo attempt fuel t

def findAll (attempt : Str → Option (Str × Str)) (s : Str) : List Str :=
  findAllGo attempt s.length s

/-! ## Whole-word category matching (`EventDetector._parse_events`)

`re.search(rf'\b{re.escape(category)}\b', block, re.IGNORECASE)`. -/

def isWordOpt : Option Char → Bool
  | none => false
  | some c => isWordChar c

/-- The pattern `\b pat \b` matches at this position, given the previous
character (`none` at the start of the text): a word boundary holds where
word-ness changes between neighbouring characters (virtual characters
outside the text are non-word). -/
def wwAt (pat : Str) (prev : Option Char) (s : Str) : Bool :=
  matchPrefixCI pat s
    && (isWordOpt prev != isWordOpt s.head?)
    && (isWordOpt (s.take pat.length).getLast? != isWordOpt (s.drop pat.length).head?)

def wwScan (pat : Str) (prev : Option Char) : Str → Bool
  | [] => false
  | s@(c :: t) => wwAt pat prev s || wwScan pat (some c) t

/-- The block contains `pat` as a whole word, case-insensitively. -/
def containsWholeWordCI (pat text : Str) : Bool := wwScan pat none text

/-! ## Record types and metadata -/

/-- Filing metadata as consumed via `filing_metadata.get(...)`; the source
defaults each absent key to `"unknown"` (or the current date), so the
embedding takes the fields as given total values. -/
structure FilingMetadata where
  accession_number : Str
  company_name : Str
  cik : Str
  form_type : Str
  filing_date : Str
deriving DecidableEq

/-- Outcome of one `ModelClient.analyze_text` invocation (models.py
119-153): `ok text` for the success dict (whose `analysis` key holds the
reply), `err e` for either failure dict (no `analysis` key). -/
inductive ModelOutcome where
  | ok (text : Str)
  | err (error : Str)
deriving DecidableEq

/-- `result.get("success", False)`. -/
def ModelOutcome.isSuccess : ModelOutcome → Bool
  | .ok _ => true
  | .err _ => false

/-- `result.get("analysis", d)`. -/
def ModelOutcome.analysisGetD (d : Str) : ModelOutcome → Str
  | .ok t => t
  | .err _ => d

/-- One entity dict built by `EntityLinker._parse_entities`. -/
structure EntityRecord where
  name : Str
  type : Str
  role : Str
  context : Str
deriving DecidableEq

/-- One event dict built by `EventDetector._parse_events`. -/
structure EventRecord where
  description : Str
  category : Str
  entities_involved : List Str
  financial_impact : Str
  market_impact : Str
  risk_level : Str
deriving DecidableEq

/-- One link dict built by `EntityLinker._parse_links`. -/
structure LinkRecord where
  description : Str
  entities_involved : List Str
  relationship_type : Str
  confidence : Str
  significance : Str
deriving DecidableEq

/-! ## `EntityLinker._parse_entities` -/

def nameLabels : List Str := [toL "entity", toL "name", toL "company", toL "person"]
def typeLabels : List Str := [toL "type", toL "category"]
def roleLabels : List Str := [toL "role", toL "function", toL "position"]

/-- Entity dict built from one stripped nonempty block. -/
def mkEntity (block : Str) : EntityRecord :=
  { name :=
      match searchFirst (attemptColonValue nameLabels) block with
      | some v => pyStrip v
      | none => ((block.takeWhile (fun c => c ≠ '\n')) |> pyStrip).take 50
    type :=
      match searchFirst (attemptColonValue typeLabels) block with
      | some v => pyStrip v
      | none => toL "unknown"
    role :=
      match searchFirst (attemptColonValue roleLabels) block with
      | some v => pyStrip v
      | none => toL "mentioned"
    context := block }

def parse_entities (extraction_text : Str) : List EntityRecord :=
  (pySplit extraction_text).filterMap fun b =>
    let block := pyStrip b
    if block.isEmpty then none else some (mkEntity block)

/-! ## `EventDetector._parse_events` -/

def EVENT_CATEGORIES : List Str :=
  [toL "Management Change", toL "Acquisition/Merger", toL "Divestiture",
   toL "Financial Results", toL "Regulatory Issue", toL "Legal Settlement",
   toL "Stock Buyback", toL "Dividend Announcement", toL "Default/Bankruptcy",
   toL "Strategic Partnership", toL "Product Launch", toL "Restructuring",
   toL "Insider Trading", toL "Accounting Change", toL "Other Material Event"]

def eventEntityLabels : List Str :=
  [toL "entity", toL "entities", toL "company", toL "person", toL "organization"]

def finLabels : List Str := [toL "financial impact"]
def marketLabels : List Str := [toL "market impact"]
def riskLabels : List Str := [toL "risk level"]

/-- Event dict built from one stripped block of length at least 20. -/
def mkEvent (block : Str) : EventRecord :=
  { description := block
    category :=
      (EVENT_CATEGORIES.find? fun cat =>
        containsWholeWordCI cat block).getD (toL "Other Material Event")
    entities_involved :=
      (findAll (attemptLooseValue eventEntityLabels) block).map pyStrip
    financial_impact :=
      match searchFirst (attemptWordValue finLabels) block with
      | some w => pyCapitalize w
      | none => toL "Unknown"
    market_impact :=
      match searchFirst (attemptWordValue marketLabels) block with
      | some w => pyCapitalize w
      | none => toL "Unknown"
    risk_level :=
      match searchFirst (attemptWordValue riskLabels) block with
      | some w => pyCapitalize w
      | none => toL "Medium" }

def parse_events (detection_text : Str) : List EventRecord :=
  if containsCI (toL "no significant events") detection_text
      || containsCI (toL "no events detected") detection_text then []
  else
    (pySplit detection_text).filterMap fun b =>
      let block := pyStrip b
      if block.length < 20 then none else some (mkEvent block)

/-! ## `EntityLinker._parse_links` -/

def linkEntityLabels : List Str :=
  [toL "entity", toL "company", toL "person", toL "organization"]

def relLabels : List Str := [toL "relationship", toL "connection", toL "link"]

/-- Link dict built from one stripped block of length at least 20. -/
def mkLink (block : Str) : LinkRecord :=
  { description := block
    entities_involved :=
      (findAll (attemptColonValue linkEntityLabels) block).map pyStrip
    relationship_type :=
      match searchFirst (attemptColonValue relLabels) block with
      | some v => pyStrip v
      | none => toL "related"
    confidence := toL "medium"
    significance :=
      if containsCI (toL "significant") block || containsCI (toL "important") block
          || containsCI (toL "critical") block || containsCI (toL "major") block then
        toL "high"
      else if containsCI (toL "minor") block || containsCI (toL "small") block
          || containsCI (toL "slight") block then
        toL "low"
      else toL "medium" }

def parse_links (link_text : Str) : List LinkRecord :=
  (pySplit link_text).filterMap fun b =>
    let block := pyStrip b
    if block.length < 20 then none else some (mkLink block)

/-! ## `EntityLinker` operations

`self.entity_cache` is initialised to the empty dict in `__init__`
(entity_linker.py line 32) and appears nowhere else in the class, so the
state-passing embeddings below thread it through untouched. -/

structure ExtractionResult where
  filing_id : Str
  filing_type : Str
  filing_date : Str
  company_name : Str
  cik : Str
  extracted_text : Str
  raw_entities : List EntityRecord
  extraction_timestamp : Str
deriving DecidableEq

/-- `EntityLinker.extract_entities`: one gateway call, reply parsed into
entity records.  `now` stands for `datetime.now().isoformat()`. -/
def extract_entities (gw : ModelOutcome) (meta : FilingMetadata)
    (now : Str) : ExtractionResult :=
  { filing_id := meta.accession_number
    filing_type := meta.form_type
    filing_date := meta.filing_date
    company_name := meta.company_name
    cik := meta.cik
    extracted_text := gw.analysisGetD []
    raw_entities := parse_entities (gw.analysisGetD [])
    extraction_timestamp := now }

/-- Result dict of `EntityLinker.link_entities`.  The short-circuit
branch (lines 158-164) builds a dict without a `link_text` key, hence the
`Option`. -/
structure LinkResult where
  filing_id : Str
  links : List LinkRecord
  link_text : Option Str
  new_entities : List EntityRecord
  link_timestamp : Str
deriving DecidableEq

/-- `EntityLinker.link_entities`: returns the result dict paired with the
number of model-gateway invocations the call performed.  With no
historical extractions it short-circuits without any gateway call;
otherwise it performs exactly one call (`gw` is its outcome; the
correlation prompt built from the current and at most 10 historical
extractions only feeds that call). -/
def link_entities (gw : ModelOutcome) (current : ExtractionResult)
    (historical : List ExtractionResult) (now : Str) : LinkResult × Nat :=
  if historical.isEmpty then
    ({ filing_id := current.filing_id
       links := []
       link_text := none
       new_entities := current.raw_entities
       link_timestamp := now }, 0)
  else
    ({ filing_id := current.filing_id
       links := parse_links (gw.analysisGetD [])
       link_text := some (gw.analysisGetD [])
       new_entities := current.raw_entities
       link_timestamp := now }, 1)

/-- The `EntityLinker` instance state: just the entity cache. -/
structure EntityLinkerState where
  entity_cache : List (Str × Str)
deriving DecidableEq

/-- `EntityLinker.__init__`: the cache starts empty. -/
def EntityLinker.init : EntityLinkerState := { entity_cache := [] }

/-- `extract_entities` as a state transformer on the linker instance. -/
def extract_entitiesS (st : EntityLinkerState) (gw : ModelOutcome)
    (meta : FilingMetadata) (now : Str) :
    ExtractionResult × EntityLinkerState :=
  (extract_entities gw meta now, st)

/-- `link_entities` as a state transformer on the linker instance. -/
def link_entitiesS (st : EntityLinkerState) (gw : ModelOutcome)
    (current : ExtractionResult) (historical : List ExtractionResult)
    (now : Str) : (LinkResult × Nat) × EntityLinkerState :=
  (link_entities gw current historical now, st)

/-! ## `EventDetector.detect_events` -/

structure EventResult where
  filing_id : Str
  company_name : Str
  cik : Str
  filing_type : Str
  filing_date : Str
  events : List EventRecord
  event_count : Nat
  detection_timestamp : Str
  has_critical_events : Bool
  has_high_impact_events : Bool
deriving DecidableEq

/-- `EventDetector.detect_events`: one gateway call (`gw` its outcome;
the prompt assembled from the filing text, the optional prior analysis
and the category hints only feeds that call), reply parsed into events,
aggregate flags reduced over the parsed list. -/
def detect_events (gw : ModelOutcome) (meta : FilingMetadata)
    (now : Str) : EventResult :=
  let detected := parse_events (gw.analysisGetD [])
  { filing_id := meta.accession_number
    company_name := meta.company_name
    cik := meta.cik
    filing_type := meta.form_type
    filing_date := meta.filing_date
    events := detected
    event_count := detected.length
    detection_timestamp := now
    has_critical_events := detected.any fun e => e.risk_level == toL "Critical"
    has_high_impact_events := detected.any fun e => e.market_impact == toL "High" }

/-! ## `FilingAnalyzer` orchestration -/

structure SectionAnalysis where
  section_name : Str
  analysis : Str
  success : Bool
deriving DecidableEq

/-- `FilingAnalyzer._analyze_section`: the outcome of the section's
gateway call becomes a value -- `analysis_result.get("analysis", "")` and
`analysis_result.get("success", False)`; a failed call therefore yields
`success := false` with the empty analysis string, and no exception
escapes (`analyze_text` catches every error of the transport). -/
def analyze_section (secOut : ModelOutcome) (section_name : Str) :
    SectionAnalysis :=
  { section_name := section_name
    analysis := secOut.analysisGetD []
    success := secOut.isSuccess }

/-- Modelled from the spec: the consolidated result of
`FilingAnalyzer.analyze_filing`.  The source file is truncated inside the
final result-dict literal (filing_analyzer.py ends at line 230, inside
`"company": {...}`), so the fields after `filing_id` and the aggregate
success flag follow section 3 of the design document: summary text,
section analyses, overall assessment, timestamp, and
`success = summary success AND assessment success`. -/
structure FilingAnalysis where
  filing_id : Str
  company_name : Str
  summary : Str
  section_analyses : List SectionAnalysis
  overall_assessment : Str
  analysis_timestamp : Str
  success : Bool
deriving DecidableEq

/-- `FilingAnalyzer.analyze_filing`.  `summaryOut` is the outcome of the
summarization call, `secOut name` the outcome of the analysis call for
the section named `name` (each nonempty section dispatches exactly one
call, and section names are unique dict keys), `assessOut` the outcome of
the assessment call, whose input text is
`summary_result.get("analysis", "No summary available")`.  The final
result assembly is modelled from the spec where the source is truncated
(see `FilingAnalysis`). -/
def analyze_filing (summaryOut : ModelOutcome) (secOut : Str → ModelOutcome)
    (assessOut : ModelOutcome) (filing_text : Str) (meta : FilingMetadata)
    (now : Str) : FilingAnalysis :=
  let sections := extract_sections filing_text meta.form_type
  let section_analyses :=
    (sections.filter fun p => !p.2.isEmpty).map fun p =>
      analyze_section (secOut p.1) p.1
  { filing_id := meta.accession_number
    company_name := meta.company_name
    summary := summaryOut.analysisGetD []
    section_analyses := section_analyses
    overall_assessment := assessOut.analysisGetD []
    analysis_timestamp := now
    success := summaryOut.isSuccess && assessOut.isSuccess }

/-! ## Regions of a document (for the non-overlap property) -/

/-- `s` is the contiguous region of `doc` starting at index `b`. -/
def isRegionAt (doc : Str) (b : Nat) (s : Str) : Prop :=
  b + s.length ≤ doc.length ∧ s = (doc.drop b).take s.length

/-- Two section texts occupy pairwise non-overlapping regions of the
document: they can be placed at disjoint index ranges. -/
def NonOverlappingPair (doc s1 s2 : Str) : Prop :=
  ∃ b1 b2, isRegionAt doc b1 s1 ∧ isRegionAt doc b2 s2 ∧
    (b1 + s1.length ≤ b2 ∨ b2 + s2.length ≤ b1)

/-! ## Helper lemmas: captures are substrings of the scanned text -/

theorem captureFrom_pref {cat : List Str} {s cap : Str}
    (h : captureFrom cat s = some cap) : cap <+: s := by
  unfold captureFrom at h
  rcases ht : s.takeWhile (fun c => c ≠ '\n') with _ | ⟨a, m⟩ <;>
    rcases hd : s.dropWhile (fun c => c ≠ '\n') with _ | ⟨c, rest⟩ <;>
      rw [ht, hd] at h <;> try simp at h
  obtain ⟨hc, h⟩ := h
  subst hc
  subst h
  refine ⟨rest.drop (lazyScan cat rest), ?_⟩
  have hs := List.takeWhile_append_dropWhile (fun c => c ≠ '\n') s
  rw [ht, hd] at hs
  conv_rhs => rw [← hs]
  simp [List.take_append_drop]

theorem tryClassRun_inf {cat : List Str} {s0 cap : Str} :
    ∀ k, tryClassRun cat s0 k = some cap → cap <:+: s0 := by
  intro k
  induction k with
  | zero =>
    intro h
    unfold tryClassRun at h
    exact List.IsPrefix.isInfix (captureFrom_pref h)
  | succ k ih =>
    intro h
    unfold tryClassRun at h
    cases hc : captureFrom cat (s0.drop (k + 1)) with
    | some cap2 =>
      rw [hc] at h
      injection h with h
      subst h
      exact List.IsInfix.trans (List.IsPrefix.isInfix (captureFrom_pref hc))
        (List.IsSuffix.isInfix (List.drop_suffix _ _))
    | none =>
      rw [hc] at h
      exact ih h

theorem attemptAt_inf {cat : List Str} {lab s cap : Str}
    (h : attemptAt cat lab s = some cap) : cap <:+: s := by
  unfold attemptAt at h
  split at h
  · exact List.IsInfix.trans (tryClassRun_inf _ h)
      (List.IsSuffix.isInfix (List.drop_suffix _ _))
  · exact absurd h (by simp)

theorem findFirstCapture_inf {cat : List Str} {lab : Str} :
    ∀ {s cap : Str}, findFirstCapture cat lab s = some cap → cap <:+: s := by
  intro s
  induction s with
  | nil =>
    intro cap h
    simp [findFirstCapture] at h
  | cons c t ih =>
    intro cap h
    unfold findFirstCapture at h
    cases ha : attemptAt cat lab (c :: t) with
    | some cap2 =>
      rw [ha] at h
      injection h with h
      subst h
      exact attemptAt_inf ha
    | none =>
      rw [ha] at h
      exact List.IsInfix.trans (ih h) (List.IsSuffix.isInfix ⟨[c], rfl⟩)

theorem pyStrip_inf (s : Str) : pyStrip s <:+: s := by
  unfold pyStrip
  have h1 : s.dropWhile isPyWS <:+ s := List.dropWhile_suffix _
  have h2 : (s.dropWhile isPyWS).reverse.dropWhile isPyWS
      <:+ (s.dropWhile isPyWS).reverse := List.dropWhile_suffix _
  have h3 : ((s.dropWhile isPyWS).reverse.dropWhile isPyWS).reverse
      <+: s.dropWhile isPyWS := by
    have := List.reverse_prefix.mpr h2
    rwa [List.reverse_reverse] at this
  exact List.IsInfix.trans (List.IsPrefix.isInfix h3) (List.IsSuffix.isInfix h1)

/-- C7 (amended): for every document and every document type with a
nonempty section catalog, every section string returned by
`extract_sections` is a substring (contiguous infix) of the original
document -- no fabricated text.  (The non-overlap half of the original
claim fails; see the counterexample.) -/
theorem C7_sections_substring (doc ty : Str)
    (h : SECTIONS_OF_INTEREST ty ≠ []) :
    ∀ p ∈ extract_sections doc ty, p.2 <:+: doc := by
  intro p hp
  simp only [extract_sections] at hp
  rw [if_neg h] at hp
  rw [List.mem_filterMap] at hp
  obtain ⟨lab, _, hf⟩ := hp
  rw [Option.map_eq_some'] at hf
  obtain ⟨cap, hc, hf⟩ := hf
  have h2 : p.2 = pyStrip cap := by rw [← hf]
  rw [h2]
  exact List.IsInfix.trans (pyStrip_inf cap) (findFirstCapture_inf hc)

/-- Witness for C7: concrete type `"4"` (nonempty catalog) and a
concrete document. -/
theorem C7_sections_substring_witness :
    SECTIONS_OF_INTEREST (toL "4") ≠ [] ∧
    ∀ p ∈ extract_sections (toL "Table I\nxx\nmore") (toL "4"),
      p.2 <:+: toL "Table I\nxx\nmore" :=
  ⟨by decide, C7_sections_substring _ _ (by decide)⟩

/-- C7 counterexample: on this document the "4" catalog yields two
sections of lengths 24 and 15 inside a 32-character document, so they
cannot occupy disjoint regions -- the sections overlap. -/
theorem C7_cex :
    (extract_sections (toL "Table I\nTable II stuff here\nmore")
        (toL "4")).map Prod.snd
      = [toL "Table II stuff here\nmore", toL "stuff here\nmore"] ∧
    ¬ NonOverlappingPair (toL "Table I\nTable II stuff here\nmore")
        (toL "Table II stuff here\nmore") (toL "stuff here\nmore") := by
  constructor
  · decide
  · rintro ⟨b1, b2, ⟨hb1, -⟩, ⟨hb2, -⟩, hd⟩
    have h1 : (toL "Table II stuff here\nmore").length = 24 := by decide
    have h2 : (toL "stuff here\nmore").length = 15 := by decide
    have h3 : (toL "Table I\nTable II stuff here\nmore").length = 32 := by decide
    rw [h1, h3] at hb1
    rw [h2, h3] at hb2
    rw [h1] at hd
    rw [h2] at hd
    omega

/-! ## C8: scanning semantics of the section pattern -/

theorem lazyScan_holds (cat : List Str) :
    ∀ s : Str, lookaheadHolds cat (s.drop (lazyScan cat s)) = true := by
  intro s
  induction s with
  | nil => simp [lazyScan, lookaheadHolds]
  | cons c t ih =>
    cases hb : lookaheadHolds cat (c :: t) with
    | true => simp [lazyScan, hb]
    | false =>
      simp only [lazyScan, hb, Bool.false_eq_true, if_false, Nat.add_comm 1,
        List.drop_succ_cons]
      exact ih

theorem lazyScan_min (cat : List Str) :
    ∀ (s : Str) (d : Nat), d < lazyScan cat s →
      lookaheadHolds cat (s.drop d) = false := by
  intro s
  induction s with
  | nil => intro d hd; simp [lazyScan] at hd
  | cons c t ih =>
    intro d hd
    cases hb : lookaheadHolds cat (c :: t) with
    | true => simp [lazyScan, hb] at hd
    | false =>
      simp only [lazyScan, hb, Bool.false_eq_true, if_false] at hd
      cases d with
      | zero => simpa using hb
      | succ d =>
        rw [List.drop_succ_cons]
        exact ih d (by omega)

/-- C8 (amended): for every catalog label the extractor scans the
document case-insensitively for the label followed by text running up to
the first subsequent position where **any** catalog label (the scanned
label itself included) occurs, or to end-of-document; only the first
match per label is kept, and a label with no match is omitted from the
result entirely.  Conjuncts: (1) the lookahead cut-off position is the
least one (over the full catalog, self included); (2) every returned
entry's text is the stripped first capture for its own label; (3) a
label without a match contributes no entry; (4) a label with a match
contributes its entry. -/
theorem C8_scan_characterization (doc ty : Str)
    (h : SECTIONS_OF_INTEREST ty ≠ []) :
    (∀ s : Str,
      lookaheadHolds (SECTIONS_OF_INTEREST ty)
          (s.drop (lazyScan (SECTIONS_OF_INTEREST ty) s)) = true ∧
      ∀ d < lazyScan (SECTIONS_OF_INTEREST ty) s,
        lookaheadHolds (SECTIONS_OF_INTEREST ty) (s.drop d) = false) ∧
    (∀ p ∈ extract_sections doc ty,
      (findFirstCapture (SECTIONS_OF_INTEREST ty) p.1 doc).map pyStrip
        = some p.2) ∧
    (∀ lab ∈ SECTIONS_OF_INTEREST ty,
      findFirstCapture (SECTIONS_OF_INTEREST ty) lab doc = none →
        ∀ p ∈ extract_sections doc ty, p.1 ≠ lab) ∧
    (∀ lab ∈ SECTIONS_OF_INTEREST ty, ∀ cap,
      findFirstCapture (SECTIONS_OF_INTEREST ty) lab doc = some cap →
        (lab, pyStrip cap) ∈ extract_sections doc ty) := by
  refine ⟨fun s => ⟨lazyScan_holds _ s, fun d hd => lazyScan_min _ s d hd⟩,
    ?_, ?_, ?_⟩
  · intro p hp
    simp only [extract_sections] at hp
    rw [if_neg h] at hp
    rw [List.mem_filterMap] at hp
    obtain ⟨lab, _, hf⟩ := hp
    rw [Option.map_eq_some'] at hf
    obtain ⟨cap, hc, hf⟩ := hf
    have h1 : p.1 = lab := by rw [← hf]
    have h2 : p.2 = pyStrip cap := by rw [← hf]
    rw [h1, h2, hc]
    rfl
  · intro lab _ hnone p hp hlab
    simp only [extract_sections] at hp
    rw [if_neg h] at hp
    rw [List.mem_filterMap] at hp
    obtain ⟨lab2, _, hf⟩ := hp
    rw [Option.map_eq_some'] at hf
    obtain ⟨cap, hc, hf⟩ := hf
    have h1 : p.1 = lab2 := by rw [← hf]
    rw [hlab] at h1
    rw [← h1] at hc
    rw [hnone] at hc
    exact Option.noConfusion hc
  · intro lab hlab cap hc
    simp only [extract_sections]
    rw [if_neg h]
    rw [List.mem_filterMap]
    refine ⟨lab, hlab, ?_⟩
    rw [hc]
    rfl

/-- Witness for C8 at type `"4"` and a concrete document. -/
theorem C8_scan_characterization_witness :
    SECTIONS_OF_INTEREST (toL "4") ≠ [] ∧
    ((toL "Table I", toL "xx")
        ∈ extract_sections (toL "Table I\nxx\nTable I again\nmore") (toL "4")) := by
  refine ⟨by decide, ?_⟩
  have h := (C8_scan_characterization (toL "Table I\nxx\nTable I again\nmore")
    (toL "4") (by decide)).2.2.2
  exact h (toL "Table I") (by decide) (toL "xx\n") (by decide)

/-- C8 counterexample: with the lookahead restricted to the **other**
catalog labels, as the claim's wording has it, the extraction of this
document under the "4" catalog differs from what the source produces --
the source's capture for "Table I" is cut at the next occurrence of
"Table I" itself. -/
theorem C8_cex :
    extract_sections (toL "Table I\nxx\nTable I again\nmore") (toL "4")
      = [(toL "Table I", toL "xx")] ∧
    extract_sections_specwords (toL "Table I\nxx\nTable I again\nmore") (toL "4")
      = [(toL "Table I", toL "xx\nTable I again\nmore")] ∧
    extract_sections (toL "Table I\nxx\nTable I again\nmore") (toL "4")
      ≠ extract_sections_specwords (toL "Table I\nxx\nTable I again\nmore")
          (toL "4") := by
  refine ⟨by decide, by decide, by decide⟩

/-! ## C6: empty-catalog fallback -/

/-- C6 (amended): for every document text and every document type whose
section catalog is empty, `extract_sections` returns exactly one entry,
mapping the sentinel label `"complete_filing"` (not `"complete_document"`)
to the entire input text; the fallback yields a nonempty section whenever
the input text is nonempty (and only then). -/
theorem C6_empty_catalog_fallback (doc ty : Str)
    (h : SECTIONS_OF_INTEREST ty = []) :
    extract_sections doc ty = [(toL "complete_filing", doc)] ∧
    (doc ≠ [] → ∃ p ∈ extract_sections doc ty, p.2 ≠ []) := by
  have he : extract_sections doc ty = [(toL "complete_filing", doc)] := by
    simp [extract_sections, h]
  refine ⟨he, fun hd => ⟨(toL "complete_filing", doc), ?_, hd⟩⟩
  rw [he]
  exact List.mem_singleton.mpr rfl

/-- Witness for C6: the type `"unknown"` has an empty catalog. -/
theorem C6_empty_catalog_fallback_witness :
    SECTIONS_OF_INTEREST (toL "unknown") = [] ∧
    extract_sections (toL "x") (toL "unknown")
      = [(toL "complete_filing", toL "x")] ∧
    ∃ p ∈ extract_sections (toL "x") (toL "unknown"), p.2 ≠ [] :=
  ⟨by decide,
   (C6_empty_catalog_fallback (toL "x") (toL "unknown") (by decide)).1,
   (C6_empty_catalog_fallback (toL "x") (toL "unknown") (by decide)).2
     (by decide)⟩

/-- C6 counterexample: the sentinel label is `"complete_filing"`, not
`"complete_document"` as claimed; and on the empty document the
fallback's single section is empty, so the fallback does not always
produce a nonempty section. -/
theorem C6_cex :
    extract_sections [] (toL "unknown")
      ≠ [(toL "complete_document", ([] : Str))] ∧
    ∀ p ∈ extract_sections [] (toL "unknown"), p.2 = [] := by
  exact ⟨by decide, by decide⟩

/-! ## C2: link short-circuit on empty history -/

/-- C2: for every nonempty current extraction `x`,
`link_entities gw x [] now` performs zero model-gateway invocations and
returns a result with an empty link list, `new_entities` equal to `x`'s
entity records, `x`'s document identifier, and the call's timestamp. -/
theorem C2_link_short_circuit (gw : ModelOutcome) (x : ExtractionResult)
    (now : Str) (_hx : x.raw_entities ≠ []) :
    (link_entities gw x [] now).2 = 0 ∧
    (link_entities gw x [] now).1.links = [] ∧
    (link_entities gw x [] now).1.new_entities = x.raw_entities ∧
    (link_entities gw x [] now).1.filing_id = x.filing_id ∧
    (link_entities gw x [] now).1.link_timestamp = now := by
  refine ⟨rfl, rfl, rfl, rfl, rfl⟩

/-- Witness for C2 at a concrete nonempty extraction. -/
theorem C2_link_short_circuit_witness :
    ({ filing_id := toL "acc-1", filing_type := toL "8-K",
       filing_date := toL "2023-03-01", company_name := toL "APPLE INC",
       cik := toL "320193", extracted_text := toL "Entity: Apple",
       raw_entities := [{ name := toL "Apple", type := toL "company",
                          role := toL "filer", context := toL "Entity: Apple" }],
       extraction_timestamp := toL "t0" } : ExtractionResult).raw_entities ≠ []
    ∧ (link_entities (.ok (toL "ignored"))
        { filing_id := toL "acc-1", filing_type := toL "8-K",
          filing_date := toL "2023-03-01", company_name := toL "APPLE INC",
          cik := toL "320193", extracted_text := toL "Entity: Apple",
          raw_entities := [{ name := toL "Apple", type := toL "company",
                             role := toL "filer", context := toL "Entity: Apple" }],
          extraction_timestamp := toL "t0" } [] (toL "t1")).2 = 0 :=
  ⟨by decide,
   (C2_link_short_circuit (.ok (toL "ignored")) _ (toL "t1") (by decide)).1⟩

/-! ## C3: aggregate event flags -/

/-- C3: in every `EventResult` returned by `detect_events`,
`has_critical_events` is true iff some parsed event's `risk_level` is
exactly `"Critical"` (the parser capitalizes the extracted word), and
`has_high_impact_events` is true iff some parsed event's `market_impact`
is exactly `"High"`. -/
theorem C3_aggregate_flags (gw : ModelOutcome) (meta : FilingMetadata)
    (now : Str) :
    ((detect_events gw meta now).has_critical_events = true ↔
      ∃ e ∈ (detect_events gw meta now).events,
        e.risk_level = toL "Critical") ∧
    ((detect_events gw meta now).has_high_impact_events = true ↔
      ∃ e ∈ (detect_events gw meta now).events,
        e.market_impact = toL "High") := by
  simp [detect_events, List.any_eq_true]

/-! ## C9: the entity cache is never touched -/

/-- C9: the linker's `entity_cache` starts empty, `extract_entities` and
`link_entities` leave the instance state unchanged, and their results do
not depend on the state: repeated calls are independent. -/
theorem C9_cache_untouched :
    EntityLinker.init.entity_cache = [] ∧
    (∀ (st : EntityLinkerState) (gw : ModelOutcome) (meta : FilingMetadata)
      (now : Str), (extract_entitiesS st gw meta now).2 = st) ∧
    (∀ (st st' : EntityLinkerState) (gw : ModelOutcome)
      (meta : FilingMetadata) (now : Str),
      (extract_entitiesS st gw meta now).1 = (extract_entitiesS st' gw meta now).1) ∧
    (∀ (st : EntityLinkerState) (gw : ModelOutcome) (x : ExtractionResult)
      (hist : List ExtractionResult) (now : Str),
      (link_entitiesS st gw x hist now).2 = st) ∧
    (∀ (st st' : EntityLinkerState) (gw : ModelOutcome) (x : ExtractionResult)
      (hist : List ExtractionResult) (now : Str),
      (link_entitiesS st gw x hist now).1 = (link_entitiesS st' gw x hist now).1) :=
  ⟨rfl, fun _ _ _ _ => rfl, fun _ _ _ _ _ => rfl, fun _ _ _ _ _ => rfl,
   fun _ _ _ _ _ _ => rfl⟩

/-! ## C1: failure isolation in the orchestrator -/

/-- C1: for every document, metadata and per-call gateway outcomes, the
`FilingAnalysis` returned by `analyze_filing` has one `SectionAnalysis`
per nonempty extracted section; an entry whose section call failed
carries `success := false` and the empty analysis string (the failure is
a value: `analyze_text` never raises), every entry's success flag equals
its own call's outcome (so one failure aborts nothing else), and the
aggregate success flag equals summary success AND assessment success,
independent of the section outcomes. -/
theorem C1_failure_isolation (so ao : ModelOutcome) (sf : Str → ModelOutcome)
    (text : Str) (meta : FilingMetadata) (now : Str) :
    (analyze_filing so sf ao text meta now).section_analyses.length
      = ((extract_sections text meta.form_type).filter
          fun p => !p.2.isEmpty).length ∧
    (∀ sa ∈ (analyze_filing so sf ao text meta now).section_analyses,
      sa.success = (sf sa.section_name).isSuccess ∧
      ((sf sa.section_name).isSuccess = false → sa.analysis = [])) ∧
    (analyze_filing so sf ao text meta now).success
      = (so.isSuccess && ao.isSuccess) := by
  refine ⟨?_, ?_, rfl⟩
  · simp [analyze_filing]
  · intro sa hsa
    simp only [analyze_filing, List.mem_map] at hsa
    obtain ⟨p, _, hp⟩ := hsa
    rw [← hp]
    simp only [analyze_section]
    cases hf : sf p.1 with
    | ok t => simp [hf, ModelOutcome.isSuccess, ModelOutcome.analysisGetD]
    | err e => simp [hf, ModelOutcome.isSuccess, ModelOutcome.analysisGetD]

/-- Witness for C1: a three-section "4" filing whose second section call
fails; the result keeps three entries, the failed one with
`success = false` and empty analysis, and the aggregate flag follows the
summary and assessment calls alone. -/
theorem C1_failure_isolation_witness :
    ((analyze_filing (.ok (toL "sum")) (fun name =>
        if name = toL "Table II" then .err (toL "boom") else .ok (toL "fine"))
        (.ok (toL "assess"))
        (toL "Table I\naaa\nTable II\nbbb\nRemarks\nccc\nend")
        { accession_number := toL "acc", company_name := toL "co",
          cik := toL "cik", form_type := toL "4",
          filing_date := toL "2023-01-01" }
        (toL "t")).section_analyses.length
      = ((extract_sections (toL "Table I\naaa\nTable II\nbbb\nRemarks\nccc\nend")
          (toL "4")).filter fun p => !p.2.isEmpty).length) ∧
    ((analyze_filing (.ok (toL "sum")) (fun name =>
        if name = toL "Table II" then .err (toL "boom") else .ok (toL "fine"))
        (.ok (toL "assess"))
        (toL "Table I\naaa\nTable II\nbbb\nRemarks\nccc\nend")
        { accession_number := toL "acc", company_name := toL "co",
          cik := toL "cik", form_type := toL "4",
          filing_date := toL "2023-01-01" }
        (toL "t")).section_analyses.length = 3) ∧
    ({ section_name := toL "Table II", analysis := [], success := false }
        ∈ (analyze_filing (.ok (toL "sum")) (fun name =>
            if name = toL "Table II" then .err (toL "boom") else .ok (toL "fine"))
            (.ok (toL "assess"))
            (toL "Table I\naaa\nTable II\nbbb\nRemarks\nccc\nend")
            { accession_number := toL "acc", company_name := toL "co",
              cik := toL "cik", form_type := toL "4",
              filing_date := toL "2023-01-01" }
            (toL "t")).section_analyses) ∧
    ({ section_name := toL "Table II", analysis := [], success := false }
        : SectionAnalysis).analysis = [] :=
  ⟨(C1_failure_isolation (.ok (toL "sum")) (.ok (toL "assess")) _ _ _ _).1,
   by decide, by decide,
   ((C1_failure_isolation (.ok (toL "sum")) (.ok (toL "assess"))
      (fun name => if name = toL "Table II" then .err (toL "boom")
        else .ok (toL "fine"))
      (toL "Table I\naaa\nTable II\nbbb\nRemarks\nccc\nend")
      { accession_number := toL "acc", company_name := toL "co",
        cik := toL "cik", form_type := toL "4",
        filing_date := toL "2023-01-01" }
      (toL "t")).2.1 _ (by decide)).2 (by decide)⟩

/-! ## C4: the "no events" short-circuit -/

/-- C4 (amended): only the **event** parser short-circuits, and only on
the phrases "no significant events" or "no events detected"
(case-insensitive, anywhere in the reply): then it returns the empty
event list without blockwise parsing, so `detect_events` yields an
`EventResult` with no events and `event_count = 0` regardless of the
surrounding text.  The entity parser has no such special case (see the
counterexample). -/
theorem C4_no_events_short_circuit (gw : ModelOutcome)
    (meta : FilingMetadata) (now : Str)
    (h : (containsCI (toL "no significant events") (gw.analysisGetD [])
        || containsCI (toL "no events detected") (gw.analysisGetD []))
        = true) :
    parse_events (gw.analysisGetD []) = [] ∧
    (detect_events gw meta now).events = [] ∧
    (detect_events gw meta now).event_count = 0 := by
  have hp : parse_events (gw.analysisGetD []) = [] := by
    simp [parse_events, h]
  exact ⟨hp, by simp [detect_events, hp], by simp [detect_events, hp]⟩

/-- Witness for C4: a reply that buries the phrase in surrounding text. -/
theorem C4_no_events_short_circuit_witness :
    (containsCI (toL "no significant events")
        (ModelOutcome.analysisGetD []
          (.ok (toL "Overall, No Significant Events were found.")))
      || containsCI (toL "no events detected")
        (ModelOutcome.analysisGetD []
          (.ok (toL "Overall, No Significant Events were found.")))) = true ∧
    (detect_events (.ok (toL "Overall, No Significant Events were found."))
        { accession_number := toL "acc", company_name := toL "co",
          cik := toL "cik", form_type := toL "8-K",
          filing_date := toL "2023-01-01" } (toL "t")).events = [] :=
  ⟨by decide,
   (C4_no_events_short_circuit
     (.ok (toL "Overall, No Significant Events were found."))
     { accession_number := toL "acc", company_name := toL "co",
       cik := toL "cik", form_type := toL "8-K",
       filing_date := toL "2023-01-01" } (toL "t") (by decide)).2.1⟩

/-- C4 counterexample: the reply "no significant entities detected"
belongs to the claimed phrase family, yet entity parsing returns a
nonempty record list -- `_parse_entities` has no such check at all. -/
theorem C4_cex :
    parse_entities (toL "no significant entities detected")
      = [{ name := toL "no significant entities detected",
           type := toL "unknown", role := toL "mentioned",
           context := toL "no significant entities detected" }] ∧
    parse_entities (toL "no significant entities detected") ≠ [] := by
  exact ⟨by decide, by decide⟩

/-! ## C10: labeled word fields are capitalized first words -/

/-- C10: whenever the financial-impact / market-impact / risk-level
search finds a labeled value in a block, the stored field is exactly the
captured first `\w+` word normalized by Python `str.capitalize` (first
character upper-cased, the rest lower-cased); so "Risk Level: CRITICAL"
stores "Critical", and "Risk Level: Very High" stores "Very". -/
theorem C10_field_capitalize (block w : Str) :
    (searchFirst (attemptWordValue finLabels) block = some w →
      (mkEvent block).financial_impact = pyCapitalize w) ∧
    (searchFirst (attemptWordValue marketLabels) block = some w →
      (mkEvent block).market_impact = pyCapitalize w) ∧
    (searchFirst (attemptWordValue riskLabels) block = some w →
      (mkEvent block).risk_level = pyCapitalize w) := by
  refine ⟨fun h => ?_, fun h => ?_, fun h => ?_⟩ <;> simp [mkEvent, h]

/-- Witness for C10: the capitalization examples from the claim. -/
theorem C10_field_capitalize_witness :
    (mkEvent (toL "Risk Level: CRITICAL")).risk_level
        = pyCapitalize (toL "CRITICAL") ∧
    pyCapitalize (toL "CRITICAL") = toL "Critical" ∧
    (mkEvent (toL "some event text here Risk Level: Very High")).risk_level
        = pyCapitalize (toL "Very") ∧
    pyCapitalize (toL "Very") = toL "Very" ∧
    (detect_events (.ok (toL "Risk Level: CRITICAL"))
        { accession_number := toL "acc", company_name := toL "co",
          cik := toL "cik", form_type := toL "8-K",
          filing_date := toL "2023-01-01" } (toL "t")).has_critical_events
      = true :=
  ⟨(C10_field_capitalize (toL "Risk Level: CRITICAL") (toL "CRITICAL")).2.2
     (by decide),
   by decide,
   (C10_field_capitalize (toL "some event text here Risk Level: Very High")
     (toL "Very")).2.2 (by decide),
   by decide, by decide⟩

/-! ## C5: parser totality and per-field defaults -/

/-- C5: the three block parsers are total Lean functions (so no
exception can escape them) and degrade gracefully: the empty and
whitespace-only inputs yield empty record lists, and in every returned
record every field is present, holding its declared default whenever no
labeled value is found in the record's block (the block is stored as the
record's `context` / `description`). -/
theorem C5_parsers_total_defaults (text : Str) :
    (parse_entities [] = [] ∧ parse_events [] = [] ∧ parse_links [] = []) ∧
    (parse_entities (toL "   \n  ") = [] ∧ parse_events (toL "   \n  ") = []
      ∧ parse_links (toL "   \n  ") = []) ∧
    (∀ ent ∈ parse_entities text,
      (searchFirst (attemptColonValue nameLabels) ent.context = none →
        ent.name = (pyStrip (ent.context.takeWhile fun c => c ≠ '\n')).take 50) ∧
      (searchFirst (attemptColonValue typeLabels) ent.context = none →
        ent.type = toL "unknown") ∧
      (searchFirst (attemptColonValue roleLabels) ent.context = none →
        ent.role = toL "mentioned")) ∧
    (∀ ev ∈ parse_events text,
      (EVENT_CATEGORIES.find?
          (fun c => containsWholeWordCI c ev.description) = none →
        ev.category = toL "Other Material Event") ∧
      (findAll (attemptLooseValue eventEntityLabels) ev.description = [] →
        ev.entities_involved = []) ∧
      (searchFirst (attemptWordValue finLabels) ev.description = none →
        ev.financial_impact = toL "Unknown") ∧
      (searchFirst (attemptWordValue marketLabels) ev.description = none →
        ev.market_impact = toL "Unknown") ∧
      (searchFirst (attemptWordValue riskLabels) ev.description = none →
        ev.risk_level = toL "Medium")) ∧
    (∀ lk ∈ parse_links text,
      (findAll (attemptColonValue linkEntityLabels) lk.description = [] →
        lk.entities_involved = []) ∧
      (searchFirst (attemptColonValue relLabels) lk.description = none →
        lk.relationship_type = toL "related") ∧
      lk.confidence = toL "medium" ∧
      (lk.significance = toL "high" ∨ lk.significance = toL "medium" ∨
        lk.significance = toL "low")) := by
  refine ⟨⟨by decide, by decide, by decide⟩,
    ⟨by decide, by decide, by decide⟩, ?_, ?_, ?_⟩
  · intro ent hent
    simp only [parse_entities, List.mem_filterMap] at hent
    obtain ⟨b, _, hb⟩ := hent
    split at hb
    · exact absurd hb (by simp)
    · injection hb with hb
      subst hb
      refine ⟨fun h => ?_, fun h => ?_, fun h => ?_⟩ <;>
        simp only [mkEntity] at h ⊢ <;> rw [h]
  · intro ev hev
    rw [parse_events] at hev
    split at hev
    · exact absurd hev (by simp)
    · simp only [List.mem_filterMap] at hev
      obtain ⟨b, _, hb⟩ := hev
      split at hb
      · exact absurd hb (by simp)
      · injection hb with hb
        subst hb
        refine ⟨fun h => ?_, fun h => ?_, fun h => ?_, fun h => ?_,
          fun h => ?_⟩ <;> simp only [mkEvent] at h ⊢ <;> rw [h] <;> rfl
  · intro lk hlk
    simp only [parse_links, List.mem_filterMap] at hlk
    obtain ⟨b, _, hb⟩ := hlk
    split at hb
    · exact absurd hb (by simp)
    · injection hb with hb
      subst hb
      refine ⟨fun h => ?_, fun h => ?_, rfl, ?_⟩
      · simp only [mkLink] at h ⊢
        rw [h]
        rfl
      · simp only [mkLink] at h ⊢
        rw [h]
      · simp only [mkLink]
        split
        · exact Or.inl rfl
        · split
          · exact Or.inr (Or.inr rfl)
          · exact Or.inr (Or.inl rfl)

/-- Witness for C5: concrete records from a concrete reply text, with the
default-triggering hypotheses discharged by evaluation. -/
theorem C5_parsers_total_defaults_witness :
    parse_entities [] = [] ∧
    (mkEntity (toL "Katherine Adams, a person")).type = toL "unknown" ∧
    (mkEvent (toL "Other stuff happened that is long enough")).risk_level
      = toL "Medium" :=
  ⟨(C5_parsers_total_defaults []).1.1,
   ((C5_parsers_total_defaults (toL "Katherine Adams, a person")).2.2.1
     (mkEntity (toL "Katherine Adams, a person")) (by decide)).2.1 (by decide),
   (((C5_parsers_total_defaults
        (toL "Other stuff happened that is long enough")).2.2.2.1
     (mkEvent (toL "Other stuff happened that is long enough"))
     (by decide)).2.2.2.2) (by decide)⟩
